import Mathlib

/-!
Verification development for the rid-simulator-app Remote-ID pipeline.

The Rust sources under `src/src-tauri/src/` are shallowly embedded below:
bytes are `Nat` values (masked with `% 256` / `&&&` where the Rust `u8`/`u16`
semantics require it), byte buffers are `List Nat`, fallible decoders return
`Except MessageError _`, and decoders that can hit a Rust index/slice panic
return `Option (Except MessageError _)` with `none` standing for the panic.
-/

set_option maxRecDepth 4000

deriving instance DecidableEq for Except

namespace RidSim

/-- Little-endian byte encoding: `toLeBytes n k` is the `k` little-endian
bytes of `n` (matching Rust `to_le_bytes` on a `k`-byte integer). -/
def toLeBytes (n : Nat) : Nat → List Nat
  | 0 => []
  | k + 1 => (n % 256) :: toLeBytes (n / 256) k

/-- Little-endian byte decoding (matching Rust `from_le_bytes`). -/
def fromLeBytes : List Nat → Nat
  | [] => 0
  | b :: rest => (b % 256) + 256 * fromLeBytes rest

/-- Interpretation of a 32-bit little-endian unsigned value as Rust `i32`. -/
def i32OfNat (n : Nat) : Int :=
  if n % (2 ^ 32) < 2 ^ 31 then (n % (2 ^ 32) : Nat) else (n % (2 ^ 32) : Nat) - 2 ^ 32

/-- The 32-bit two's-complement representation of an `i32` value, as used by
Rust `i32::to_le_bytes`. -/
def i32ToNat (i : Int) : Nat := (i % (2 ^ 32 : Int)).toNat

/-- Little-endian bytes of an `i32` (Rust `i32::to_le_bytes`). -/
def i32LeBytes (i : Int) : List Nat := toLeBytes (i32ToNat i) 4

/-- Rust `i32::from_le_bytes` on four bytes. -/
def i32FromLeBytes (b0 b1 b2 b3 : Nat) : Int :=
  i32OfNat (fromLeBytes [b0, b1, b2, b3])

/-! ### UTF-8 validation (Rust `str::from_utf8`)

Embedded as the standard byte-level DFA for UTF-8: state 0 is the start and
accept state, states 1-7 await continuation bytes (with the restricted ranges
after lead bytes E0/ED/F0/F4 that exclude overlongs and surrogates), state 8
is the dead state. `utf8Valid` accepts exactly the byte sequences accepted by
Rust's `str::from_utf8`. -/

def utf8Step (s b : Nat) : Nat :=
  if s = 0 then
    if b ≤ 0x7F then 0
    else if 0xC2 ≤ b ∧ b ≤ 0xDF then 1
    else if b = 0xE0 then 3
    else if 0xE1 ≤ b ∧ b ≤ 0xEC then 2
    else if b = 0xED then 4
    else if 0xEE ≤ b ∧ b ≤ 0xEF then 2
    else if b = 0xF0 then 5
    else if 0xF1 ≤ b ∧ b ≤ 0xF3 then 6
    else if b = 0xF4 then 7
    else 8
  else if s = 1 then if 0x80 ≤ b ∧ b ≤ 0xBF then 0 else 8
  else if s = 2 then if 0x80 ≤ b ∧ b ≤ 0xBF then 1 else 8
  else if s = 3 then if 0xA0 ≤ b ∧ b ≤ 0xBF then 1 else 8
  else if s = 4 then if 0x80 ≤ b ∧ b ≤ 0x9F then 1 else 8
  else if s = 5 then if 0x90 ≤ b ∧ b ≤ 0xBF then 2 else 8
  else if s = 6 then if 0x80 ≤ b ∧ b ≤ 0xBF then 2 else 8
  else if s = 7 then if 0x80 ≤ b ∧ b ≤ 0x8F then 2 else 8
  else 8

/-- A byte sequence is valid UTF-8 iff the DFA run ends in the accept state. -/
def utf8Valid (l : List Nat) : Bool :=
  l.foldl utf8Step 0 = 0

/-! ### Trailing trimming (Rust `trim_end_matches('\0')` and `trim_end`)

`BaseMessage::from_bytes` trims the decoded identifier with
`s.trim_end_matches('\0').trim_end()`. At the byte level (the strings
involved are valid UTF-8) this is: drop trailing `0x00` bytes, then drop
trailing UTF-8 encodings of Unicode whitespace characters. -/

/-- Drop trailing `0x00` bytes (Rust `trim_end_matches('\0')`). -/
def trimNul (l : List Nat) : List Nat :=
  (l.reverse.dropWhile (· == 0)).reverse

/-- UTF-8 encodings of the Unicode `White_Space` characters recognised by
Rust `char::is_whitespace`. -/
def wsSeqs : List (List Nat) :=
  [[0x09], [0x0A], [0x0B], [0x0C], [0x0D], [0x20],
   [0xC2, 0x85], [0xC2, 0xA0], [0xE1, 0x9A, 0x80],
   [0xE2, 0x80, 0x80], [0xE2, 0x80, 0x81], [0xE2, 0x80, 0x82],
   [0xE2, 0x80, 0x83], [0xE2, 0x80, 0x84], [0xE2, 0x80, 0x85],
   [0xE2, 0x80, 0x86], [0xE2, 0x80, 0x87], [0xE2, 0x80, 0x88],
   [0xE2, 0x80, 0x89], [0xE2, 0x80, 0x8A], [0xE2, 0x80, 0xA8],
   [0xE2, 0x80, 0xA9], [0xE2, 0x80, 0xAF], [0xE2, 0x81, 0x9F],
   [0xE3, 0x80, 0x80]]

/-- If the buffer ends with the encoding of a whitespace character, strip it. -/
def stripWsSuffix (l : List Nat) : Option (List Nat) :=
  wsSeqs.findSome? fun w =>
    if w.isSuffixOf l ∧ w.length ≤ l.length ∧ w ≠ [] then
      some (l.take (l.length - w.length))
    else none

def trimEndWsAux : Nat → List Nat → List Nat
  | 0, l => l
  | fuel + 1, l =>
    match stripWsSuffix l with
    | some l' => trimEndWsAux fuel l'
    | none => l

/-- Drop trailing whitespace characters (Rust `str::trim_end`) of a valid
UTF-8 byte sequence. Each strip removes at least one byte, so `l.length`
steps of fuel reach the fixpoint. -/
def trimEndWs (l : List Nat) : List Nat :=
  trimEndWsAux l.length l

/-! ### `MessageError` (`src/src-tauri/src/message/message.rs`) -/

/-- The codec error type. `invalidUtf8` drops the `Utf8Error` payload
carried by the Rust variant, which no caller inspects. -/
inductive MessageError where
  | insufficientLength (expected actual : Nat)
  | invalidUtf8
  | unknownMessageType (t : Nat)
deriving DecidableEq, Repr

/-- `MessageType` discriminants (`message.rs`). -/
def baseMessageType : Nat := 0
def positionVectorMessageType : Nat := 1
def systemMessageType : Nat := 4

/-! ### `BaseMessage` (`src/src-tauri/src/message/base_message.rs`) -/

/-- `BaseMessage`: `uas_id` is the UTF-8 byte content of the Rust `String`
field, `reserved` the three reserved bytes. -/
structure BaseMessage where
  id_type : Nat
  ua_type : Nat
  uas_id : List Nat
  reserved : List Nat
deriving DecidableEq, Repr

namespace BaseMessage

def EXPECTED_LENGTH : Nat := 24

/-- `BaseMessage::from_bytes`. Reads the packed type byte at offset 0 and
twenty identifier bytes at offsets 1..21; cannot panic once the length
check passes, so it returns `Except` directly. -/
def fromBytes (data : List Nat) : Except MessageError BaseMessage :=
  if data.length < EXPECTED_LENGTH then
    .error (.insufficientLength EXPECTED_LENGTH data.length)
  else
    let byte0 := data.getD 0 0
    let id_type := (byte0 >>> 4) &&& 0x0F
    let ua_type := byte0 &&& 0x0F
    let uas_id_bytes := (data.drop 1).take 20
    if utf8Valid uas_id_bytes then
      .ok ⟨id_type, ua_type, trimEndWs (trimNul uas_id_bytes), [0, 0, 0]⟩
    else
      .error .invalidUtf8

/-- `BaseMessage::encode`. Emits the 1-byte tag, the packed type byte, the
raw identifier bytes, then `23 - id_len` zero bytes. The Rust `usize`
subtraction `23 - id_len` panics (overflow) when the identifier is longer
than 23 bytes; that abnormal exit is modelled as `none`. -/
def encode (m : BaseMessage) : Option (List Nat) :=
  if m.uas_id.length ≤ 23 then
    some (((baseMessageType <<< 4) ||| 0x01) ::
      ((((m.id_type % 256) <<< 4) % 256) ||| (m.ua_type &&& 0x0F)) ::
      (m.uas_id ++ List.replicate (23 - m.uas_id.length) 0))
  else
    none

end BaseMessage

/-! ### `SystemMessage` (`src/src-tauri/src/message/system_message.rs`) -/

structure SystemMessage where
  coordinate_system : Nat
  reserved_bits : Nat
  classification_region : Nat
  station_type : Nat
  latitude : Int
  longitude : Int
  operation_count : Nat
  operation_radius : Nat
  altitude_upper : Nat
  altitude_lower : Nat
  ua_category : Nat
  ua_level : Nat
  station_altitude : Nat
  timestamp : Nat
  reserved : Nat
deriving DecidableEq, Repr

namespace SystemMessage

def EXPECTED_LENGTH : Nat := 24

/-- `SystemMessage::from_bytes`. The length guard only requires 24 bytes,
but the final `data[offset]` read of the reserved byte is at index 24, so a
buffer of exactly 24 bytes panics after passing every earlier step; the
panic is modelled as `none`. All reads before the reserved byte stay below
index 24, so their order relative to the panic is immaterial. -/
def fromBytes (data : List Nat) : Option (Except MessageError SystemMessage) :=
  if data.length < EXPECTED_LENGTH then
    some (.error (.insufficientLength EXPECTED_LENGTH data.length))
  else
    let byte0 := data.getD 0 0
    let coordinate_system := (byte0 >>> 5) &&& 0x07
    let reserved_bits := (byte0 >>> 3) &&& 0x03
    let classification_region := (byte0 >>> 2) &&& 0x07
    if classification_region = 0 ∨ 3 < classification_region then
      some (.error (.unknownMessageType 1))
    else
      let station_type := byte0 &&& 0x03
      let latitude := i32FromLeBytes (data.getD 1 0) (data.getD 2 0) (data.getD 3 0) (data.getD 4 0)
      let longitude := i32FromLeBytes (data.getD 5 0) (data.getD 6 0) (data.getD 7 0) (data.getD 8 0)
      let operation_count := fromLeBytes [data.getD 9 0, data.getD 10 0]
      let operation_radius := data.getD 11 0
      let altitude_upper := fromLeBytes [data.getD 12 0, data.getD 13 0]
      let altitude_lower := fromLeBytes [data.getD 14 0, data.getD 15 0]
      let ua_category := data.getD 16 0
      let ua_level := data.getD 17 0
      let station_altitude := fromLeBytes [data.getD 18 0, data.getD 19 0]
      let timestamp := fromLeBytes [data.getD 20 0, data.getD 21 0, data.getD 22 0, data.getD 23 0]
      if 25 ≤ data.length then
        some (.ok ⟨coordinate_system, reserved_bits, classification_region, station_type,
          latitude, longitude, operation_count, operation_radius, altitude_upper,
          altitude_lower, ua_category, ua_level, station_altitude, timestamp,
          data.getD 24 0⟩)
      else
        none

/-- `SystemMessage::encode`. `now` supplies the live Unix-time value read
from `SystemTime::now()` at encode time; the stored `timestamp` field is
ignored, exactly as in the source. -/
def encode (now : Nat) (m : SystemMessage) : List Nat :=
  ((systemMessageType <<< 4) ||| 0x01) ::
  ((((m.coordinate_system &&& 0x7F) <<< 1) % 256) |||
    ((m.reserved_bits &&& 0x03) <<< 5) |||
    ((m.classification_region &&& 0x07) <<< 2) |||
    (m.station_type &&& 0x03)) ::
  (i32LeBytes m.latitude ++ i32LeBytes m.longitude ++
   toLeBytes m.operation_count 2 ++ [m.operation_radius % 256] ++
   toLeBytes m.altitude_upper 2 ++ toLeBytes m.altitude_lower 2 ++
   [(((m.ua_category % 256) <<< 4) % 256) ||| (m.ua_level % 256)] ++
   toLeBytes m.station_altitude 2 ++ toLeBytes (now % 2 ^ 32) 4 ++
   [m.reserved % 256])

end SystemMessage

/-! ### `PositionVectorMessage`

Modelled from the spec: `PositionVectorMessage` is "a third fixed-size
sub-message of the same family", but its source file
(`position_vector_message.rs`, referenced from `packet_message.rs`) is not
among the sources under review and the spec leaves its bit layout open.
It is therefore represented opaquely by the byte sequence its `encode`
produces; every theorem that touches it holds for all byte sequences. -/
structure PositionVectorMessage where
  encodedBytes : List Nat
deriving DecidableEq, Repr

/-- Modelled from the spec: the opaque encoding of the position
sub-message. -/
def PositionVectorMessage.encode (p : PositionVectorMessage) : List Nat :=
  p.encodedBytes

/-! ### CRC16/XMODEM (the `crc16` crate, used by `PacketMessage::encode`)

Polynomial 0x1021, initial value 0, no reflection, no final xor: per input
byte the CRC is xored with `byte << 8` and then shifted eight times. -/

/-- One shift step of CRC16/XMODEM, truncated to 16 bits. -/
def crcRound (crc : Nat) : Nat :=
  if crc &&& 0x8000 ≠ 0 then ((crc <<< 1) &&& 0xFFFF) ^^^ 0x1021
  else (crc <<< 1) &&& 0xFFFF

/-- Absorb one byte into the CRC. -/
def crcByte (crc b : Nat) : Nat :=
  crcRound^[8] (crc ^^^ ((b % 256) <<< 8))

/-- `crc16::State::<crc16::XMODEM>::calculate`. -/
def crc16Xmodem (data : List Nat) : Nat :=
  data.foldl crcByte 0

/-! ### `PacketMessage` (`src/src-tauri/src/message/packet_message.rs`) -/

structure PacketMessage where
  protocol_version : Nat
  message_counter : Nat
  message_size : Nat
  message_quantity : Nat
  base_message : BaseMessage
  system_message : SystemMessage
  position_message : PositionVectorMessage
  checksum : Nat
  reserved : List Nat
deriving DecidableEq, Repr

namespace PacketMessage

/-- `PacketMessage::encode`. `ridCounter` is the value returned by the
`RID_COUNTER.fetch_add` on the process-wide atomic (a `u8`), `now` the live
clock passed down to `SystemMessage::encode`; sub-messages are emitted in
the order base, position, system, then the CRC16 of everything so far in
little-endian order, then the reserved bytes. A panic inside
`BaseMessage::encode` propagates as `none`. -/
def encode (ridCounter now : Nat) (p : PacketMessage) : Option (List Nat) :=
  (p.base_message.encode).map fun baseBytes =>
    let body := (ridCounter % 256) :: (p.protocol_version % 256) ::
      (p.message_size % 256) :: (p.message_quantity % 256) ::
      (baseBytes ++ p.position_message.encode ++ p.system_message.encode now)
    body ++ toLeBytes (crc16Xmodem body) 2 ++ p.reserved

/-- `PacketMessage::from_bytes`, parametrised by the decoder of the absent
position sub-message source. The only length guard in the source is
`data.len() < 16`; for longer-but-still-short buffers the fixed-offset
slices `&data[5..29]`, `&data[29..61]`, `&data[61..85]` and the trailing
indexing up to `data[89]` panic, modelled as `none`. Sub-message decode
errors propagate via `?` in the source order: base is sliced and decoded
before the system slice is formed. -/
def fromBytes (posDec : List Nat → Except MessageError PositionVectorMessage)
    (data : List Nat) : Option (Except MessageError PacketMessage) :=
  if data.length < 16 then
    some (.error (.insufficientLength 16 data.length))
  else if data.length < 29 then
    none
  else
    match BaseMessage.fromBytes ((data.drop 5).take 24) with
    | .error e => some (.error e)
    | .ok base =>
      if data.length < 61 then
        none
      else
        match SystemMessage.fromBytes ((data.drop 29).take 32) with
        | none => none
        | some (.error e) => some (.error e)
        | some (.ok system) =>
          if data.length < 85 then
            none
          else
            match posDec ((data.drop 61).take 24) with
            | .error e => some (.error e)
            | .ok position =>
              if data.length < 90 then
                none
              else
                some (.ok ⟨data.getD 2 0, data.getD 1 0, data.getD 3 0, data.getD 4 0,
                  base, system, position,
                  fromLeBytes [data.getD 85 0, data.getD 86 0],
                  [data.getD 87 0, data.getD 88 0, data.getD 89 0]⟩)

end PacketMessage

/-- `PacketMessage::get_ssid`: the SSID is the UAS identifier with the
fixed `RID-` ASCII prefix. -/
def PacketMessage.getSsid (p : PacketMessage) : List Nat :=
  [0x52, 0x49, 0x44, 0x2D] ++ p.base_message.uas_id

/-! ### Beacon building (`src/src-tauri/src/rid_simulator.rs`)

`build_rid_beacon` assembles a `libwifi` `Beacon` value; the structures
below mirror the `libwifi` component structures the source fills in. -/

structure VendorSpecificInfo where
  element_id : Nat
  length : Nat
  oui : List Nat
  oui_type : Nat
  data : List Nat
deriving DecidableEq, Repr

structure StationInfo where
  ssid : Option (List Nat)
  ssid_length : Option Nat
  ds_parameter_set : Option Nat
  vendor_specific : List VendorSpecificInfo
deriving DecidableEq, Repr

structure SequenceControl where
  fragment_number : Nat
  sequence_number : Nat
deriving DecidableEq, Repr

structure ManagementHeader where
  protocol_version : Nat
  frame_type : Nat
  frame_subtype : Nat
  flags : Nat
  duration : List Nat
  address_1 : List Nat
  address_2 : List Nat
  address_3 : List Nat
  sequence_control : SequenceControl
deriving DecidableEq, Repr

structure Beacon where
  header : ManagementHeader
  timestamp : Nat
  beacon_interval : Nat
  capability_info : Nat
  station_info : StationInfo
deriving DecidableEq, Repr

/-- The `Beacon` value assembled by `RidSimulator::build_rid_beacon`:
`seq` is the value fetched from the process-wide `SEQ_COUNTER` (incremented
by 0x10 per frame), `ts` the live microsecond timestamp, `ssid` the UTF-8
bytes of the SSID argument, `rid` the Remote-ID payload bytes. Frame
type/subtype are the `libwifi` Management/Beacon discriminants. -/
def ridBeaconValue (seq ts : Nat) (ssid rid : List Nat) : Beacon where
  header :=
    { protocol_version := 0
      frame_type := 0
      frame_subtype := 8
      flags := 0
      duration := [0, 0]
      address_1 := [0xFF, 0xFF, 0xFF, 0xFF, 0xFF, 0xFF]
      address_2 := [0x00, 0xE0, 0x4B, 0xD3, 0xDE, 0xD6]
      address_3 := [0x00, 0xE0, 0x4B, 0xD3, 0xDE, 0xD6]
      sequence_control := ⟨0, seq⟩ }
  timestamp := ts
  beacon_interval := 100
  capability_info := 0x1104
  station_info :=
    { ssid := some ssid
      ssid_length := some ssid.length
      ds_parameter_set := some 6
      vendor_specific :=
        [{ element_id := 221
           length := rid.length % 256
           oui := [0xFA, 0x0B, 0xBC]
           oui_type := 13
           data := rid }] }

/-- Modelled from the spec: serialization of one vendor-specific
information element ("IEEE element ID 221, a 3-byte
organizationally-unique identifier, a 1-byte sub-type, and a data field")
as performed by the external `libwifi` crate, which is not part of this
repository's sources: element id byte, length byte, OUI bytes, sub-type
byte, then the data bytes. -/
def vendorIeBytes (v : VendorSpecificInfo) : List Nat :=
  (v.element_id % 256) :: (v.length % 256) :: (v.oui ++ [v.oui_type % 256] ++ v.data)

/-- Modelled from the spec: the `libwifi` serialization of the information
element block — SSID element (id 0), DS-parameter element (id 3), then the
vendor-specific elements. -/
def stationInfoBytes (s : StationInfo) : List Nat :=
  (match s.ssid with
   | some ssid => 0 :: ssid.length % 256 :: ssid
   | none => []) ++
  (match s.ds_parameter_set with
   | some ch => [3, 1, ch % 256]
   | none => []) ++
  (s.vendor_specific.map vendorIeBytes).flatten

/-- Modelled from the spec: the `libwifi` serialization of the 802.11
management header — 2 frame-control bytes (subtype/type/version packed,
then flags), duration, the three addresses, and the 16-bit
sequence-control field whose top 12 bits are the sequence number and low 4
bits the fragment number. -/
def managementHeaderBytes (h : ManagementHeader) : List Nat :=
  [((h.frame_subtype &&& 0x0F) <<< 4) ||| ((h.frame_type &&& 0x03) <<< 2) |||
     (h.protocol_version &&& 0x03), h.flags % 256] ++
  h.duration ++ h.address_1 ++ h.address_2 ++ h.address_3 ++
  toLeBytes (((h.sequence_control.sequence_number <<< 4) |||
    (h.sequence_control.fragment_number &&& 0x0F)) % 65536) 2

/-- Modelled from the spec: `libwifi`'s `Beacon::encode` — management
header, 8-byte timestamp, 2-byte beacon interval, 2-byte capability field
(all little-endian), then the information elements. -/
def Beacon.encode (b : Beacon) : List Nat :=
  managementHeaderBytes b.header ++ toLeBytes b.timestamp 8 ++
  toLeBytes b.beacon_interval 2 ++ toLeBytes b.capability_info 2 ++
  stationInfoBytes b.station_info

/-- `RidSimulator::build_rid_beacon`: frame bytes of the assembled beacon. -/
def buildRidBeacon (seq ts : Nat) (ssid rid : List Nat) : List Nat :=
  (ridBeaconValue seq ts ssid rid).encode

/-! ### Broker connection manager (`src/src-tauri/src/mqtt_manager.rs`)

One iteration of the polling loop in `MqttManager::start_event_loop`,
as a pure step function: the poll outcome and the shared state it touches
(the `connected` flag read under the lock, and the local `retry_count`)
determine whether the task exits, how long it sleeps, and the next
`retry_count`. -/

inductive PollOutcome where
  | incoming
  | outgoing
  | pollErr
deriving DecidableEq, Repr

structure LoopStep where
  exits : Bool
  delaySecs : Nat
  retry : Nat
deriving DecidableEq, Repr

/-- One turn of the `loop` in `MqttManager::start_event_loop`
(`MAX_RETRIES = 5`): an incoming event resets `retry_count`, an outgoing
event leaves it alone, and a poll error first checks the `connected` flag
(exiting immediately when it is false), then sleeps `2^retry_count`
seconds and increments the counter while `retry_count < 5`, and otherwise
sleeps 30 seconds and resets the counter to 0. -/
def eventLoopStep (connected : Bool) (retry : Nat) : PollOutcome → LoopStep
  | .incoming => ⟨false, 0, 0⟩
  | .outgoing => ⟨false, 0, retry⟩
  | .pollErr =>
    if !connected then ⟨true, 0, retry⟩
    else if retry < 5 then ⟨false, 2 ^ retry, retry + 1⟩
    else ⟨false, 30, 0⟩

/-- `retry_count` after `n` consecutive poll failures with `connected`
held true, starting from a fresh counter. -/
def retryAfterFailures : Nat → Nat
  | 0 => 0
  | n + 1 => (eventLoopStep true (retryAfterFailures n) .pollErr).retry

/-- Backoff delay applied at the `n`-th consecutive poll failure
(`n` starting at 0) with `connected` held true. -/
def nthFailureDelay (n : Nat) : Nat :=
  (eventLoopStep true (retryAfterFailures n) .pollErr).delaySecs

/-! ### Rate limiting (`src/src-tauri/src/lib.rs`, `handle_publish_packet`)

The gate keeps a single shared `LAST_PROCESSED_TIME` instant; a message is
dropped when fewer than `RATE_LIMIT_INTERVAL` milliseconds have elapsed
since the last accepted message, and otherwise accepted with the instant
updated. Times are in milliseconds; `Instant::duration_since` saturates at
zero, as does `Nat` subtraction. -/

def RATE_LIMIT_INTERVAL_MS : Nat := 50

/-- The rate-limit gate of `handle_publish_packet`: given the stored
last-accepted time and the current instant, returns whether the message is
processed and the new stored time (unchanged on a drop — the message is
rejected outright, never queued or delayed). -/
def rateLimitGate (lastTime now : Nat) : Bool × Nat :=
  if now - lastTime < RATE_LIMIT_INTERVAL_MS then (false, lastTime)
  else (true, now)

/-! ### Sample messages used to evaluate the theorems on concrete inputs -/

/-- A `BaseMessage` with in-range fields and ASCII identifier `A`. -/
def sampleBase : BaseMessage := ⟨2, 3, [0x41], [0, 0, 0]⟩

/-- A `SystemMessage` with every field inside its nominal range. -/
def sampleSystem : SystemMessage := ⟨1, 0, 2, 1, 5, -5, 7, 8, 9, 10, 1, 2, 11, 0, 0⟩

/-- A `PacketMessage` built as `PacketMessage::new` does (protocol 0xf1,
size 25, quantity 3), with an arbitrary opaque position payload. -/
def samplePacket : PacketMessage :=
  ⟨0xf1, 1, 25, 3, sampleBase, sampleSystem, ⟨[9, 9, 9]⟩, 0, [0, 0, 0]⟩

/-- The encoded bytes of `samplePacket` at counter 1, clock 0. -/
def samplePacketBytes : List Nat := (PacketMessage.encode 1 0 samplePacket).getD []

/-! ### Supporting lemmas -/

theorem toLeBytes_length (n : Nat) : ∀ k, (toLeBytes n k).length = k := by
  induction n using Nat.strong_induction_on with
  | _ n ih =>
    intro k
    cases k with
    | zero => rfl
    | succ k =>
      show (toLeBytes n (k + 1)).length = k + 1
      rw [toLeBytes]
      by_cases h : n = 0
      · subst h
        simp [List.length_cons]
        clear ih
        induction k with
        | zero => rfl
        | succ k ih2 => rw [toLeBytes]; simp [ih2]
      · simp [List.length_cons, ih (n / 256) (Nat.div_lt_self (Nat.pos_of_ne_zero h) (by omega)) k]

theorem fromLeBytes_toLeBytes_two (c : Nat) (h : c < 65536) :
    fromLeBytes (toLeBytes c 2) = c := by
  have hrep : toLeBytes c 2 = [c % 256, c / 256 % 256] := rfl
  rw [hrep]
  simp only [fromLeBytes]
  omega

theorem utf8Valid_append (xs ys : List Nat)
    (hx : utf8Valid xs = true) (hy : utf8Valid ys = true) :
    utf8Valid (xs ++ ys) = true := by
  simp only [utf8Valid, decide_eq_true_eq] at *
  rw [List.foldl_append, hx, hy]

theorem utf8Valid_replicate_zero (k : Nat) :
    utf8Valid (List.replicate k 0) = true := by
  simp only [utf8Valid, decide_eq_true_eq]
  induction k with
  | zero => rfl
  | succ k ih => rw [List.replicate_succ, List.foldl_cons]; exact ih

theorem dropWhile_zero_replicate (k : Nat) (l : List Nat) :
    (List.replicate k 0 ++ l).dropWhile (· == 0) = l.dropWhile (· == 0) := by
  induction k with
  | zero => rfl
  | succ k ih => rw [List.replicate_succ, List.cons_append, List.dropWhile_cons_of_pos] <;> simp [ih]

theorem trimNul_append_zeros (xs : List Nat) (k : Nat) :
    trimNul (xs ++ List.replicate k 0) = trimNul xs := by
  unfold trimNul
  rw [List.reverse_append, List.reverse_replicate, dropWhile_zero_replicate]

theorem crcRound_lt (c : Nat) : crcRound c < 65536 := by
  have hand : ((c <<< 1) &&& 0xFFFF) < 65536 := Nat.lt_succ_of_le Nat.and_le_right
  unfold crcRound
  split
  · have hx : ((c <<< 1) &&& 0xFFFF) ^^^ 0x1021 < 2 ^ 16 :=
      Nat.xor_lt_two_pow (by omega) (by norm_num)
    omega
  · exact hand

theorem crcByte_lt (c b : Nat) : crcByte c b < 65536 := by
  unfold crcByte
  rw [show (8 : Nat) = 7 + 1 from rfl, Function.iterate_succ_apply']
  exact crcRound_lt _

theorem crc16Xmodem_lt (l : List Nat) : crc16Xmodem l < 65536 := by
  unfold crc16Xmodem
  suffices h : ∀ init, init < 65536 → l.foldl crcByte init < 65536 from h 0 (by norm_num)
  induction l with
  | nil => intro init h; exact h
  | cons x xs ih => intro init _; exact ih (crcByte init x) (crcByte_lt init x)

/-- Recovering the two nibbles of the packed type byte written by
`BaseMessage::encode`. -/
theorem type_byte_recover :
    ∀ i < 16, ∀ u < 16,
      ((((((i % 256) <<< 4) % 256) ||| (u &&& 0x0F)) >>> 4) &&& 0x0F = i ∧
       ((((i % 256) <<< 4) % 256) ||| (u &&& 0x0F)) &&& 0x0F = u) := by decide

/-- Evaluation of `BaseMessage::from_bytes` on a 24-byte buffer presented
as its first byte and 23-byte remainder. -/
theorem baseFromBytes_cons_eval (b : Nat) (x : List Nat) (h : x.length = 23) :
    BaseMessage.fromBytes (b :: x) =
      if utf8Valid (x.take 20) then
        .ok ⟨(b >>> 4) &&& 0x0F, b &&& 0x0F, trimEndWs (trimNul (x.take 20)), [0, 0, 0]⟩
      else .error .invalidUtf8 := by
  rw [BaseMessage.fromBytes,
    if_neg (by simp only [BaseMessage.EXPECTED_LENGTH, List.length_cons, h]; omega)]
  simp only [List.getD_cons_zero, List.drop_succ_cons, List.drop_zero]

/-- Evaluation of `SystemMessage::from_bytes` on buffers long enough to
avoid the reserved-byte panic. -/
theorem sysFromBytes_eval (data : List Nat) (h : 25 ≤ data.length) :
    SystemMessage.fromBytes data =
      if ((data.getD 0 0) >>> 2) &&& 0x07 = 0 ∨ 3 < ((data.getD 0 0) >>> 2) &&& 0x07 then
        some (.error (.unknownMessageType 1))
      else
        some (.ok ⟨(data.getD 0 0) >>> 5 &&& 0x07, (data.getD 0 0) >>> 3 &&& 0x03,
          (data.getD 0 0) >>> 2 &&& 0x07, (data.getD 0 0) &&& 0x03,
          i32FromLeBytes (data.getD 1 0) (data.getD 2 0) (data.getD 3 0) (data.getD 4 0),
          i32FromLeBytes (data.getD 5 0) (data.getD 6 0) (data.getD 7 0) (data.getD 8 0),
          fromLeBytes [data.getD 9 0, data.getD 10 0], data.getD 11 0,
          fromLeBytes [data.getD 12 0, data.getD 13 0],
          fromLeBytes [data.getD 14 0, data.getD 15 0],
          data.getD 16 0, data.getD 17 0,
          fromLeBytes [data.getD 18 0, data.getD 19 0],
          fromLeBytes [data.getD 20 0, data.getD 21 0, data.getD 22 0, data.getD 23 0],
          data.getD 24 0⟩) := by
  rw [SystemMessage.fromBytes, if_neg (by simp only [SystemMessage.EXPECTED_LENGTH]; omega)]
  by_cases hbad : ((data.getD 0 0) >>> 2) &&& 0x07 = 0 ∨ 3 < ((data.getD 0 0) >>> 2) &&& 0x07
  · rw [if_pos hbad, if_pos hbad]
  · rw [if_neg hbad, if_neg hbad, if_pos h]

/-- Evaluation of `SystemMessage::from_bytes` on a buffer of exactly the
declared expected length: the length check passes, and the decode either
rejects the classification region or panics at the reserved-byte read. -/
theorem sysFromBytes_eval24 (data : List Nat) (h : data.length = 24) :
    SystemMessage.fromBytes data =
      if ((data.getD 0 0) >>> 2) &&& 0x07 = 0 ∨ 3 < ((data.getD 0 0) >>> 2) &&& 0x07 then
        some (.error (.unknownMessageType 1))
      else
        none := by
  rw [SystemMessage.fromBytes, if_neg (by simp only [SystemMessage.EXPECTED_LENGTH]; omega)]
  by_cases hbad : ((data.getD 0 0) >>> 2) &&& 0x07 = 0 ∨ 3 < ((data.getD 0 0) >>> 2) &&& 0x07
  · rw [if_pos hbad, if_pos hbad]
  · rw [if_neg hbad, if_neg hbad, if_neg (by omega)]

/-! ### Claim theorems -/

/-- Claim C5: a buffer shorter than a kind's fixed expected length (24 for
`BaseMessage`, 24 for `SystemMessage`, 16 for `PacketMessage`, the lengths
each `from_bytes` checks against) makes decode fail with
`InsufficientLength(expected, actual)` carrying the exact expected and
actual byte counts, and such buffers produce no other failure (no panic,
no other error). For `PacketMessage` this holds for every decoder of the
absent position sub-message. -/
theorem insufficient_length_exact (data : List Nat) :
    (data.length < 24 →
      BaseMessage.fromBytes data = .error (.insufficientLength 24 data.length)) ∧
    (data.length < 24 →
      SystemMessage.fromBytes data = some (.error (.insufficientLength 24 data.length))) ∧
    (∀ posDec, data.length < 16 →
      PacketMessage.fromBytes posDec data =
        some (.error (.insufficientLength 16 data.length))) := by
  refine ⟨fun h => ?_, fun h => ?_, fun posDec h => ?_⟩
  · simp [BaseMessage.fromBytes, BaseMessage.EXPECTED_LENGTH, h]
  · simp [SystemMessage.fromBytes, SystemMessage.EXPECTED_LENGTH, h]
  · simp [PacketMessage.fromBytes, h]

/-- Claim C5 witness: the three decoders on a concrete 3-byte buffer. -/
theorem insufficient_length_exact_witness :
    BaseMessage.fromBytes [1, 2, 3] = .error (.insufficientLength 24 3) ∧
    SystemMessage.fromBytes [1, 2, 3] = some (.error (.insufficientLength 24 3)) ∧
    PacketMessage.fromBytes (fun d => .ok ⟨d⟩) [1, 2, 3] =
      some (.error (.insufficientLength 16 3)) :=
  ⟨(insufficient_length_exact [1, 2, 3]).1 (by decide),
   (insufficient_length_exact [1, 2, 3]).2.1 (by decide),
   (insufficient_length_exact [1, 2, 3]).2.2 _ (by decide)⟩

/-- Claim C6: on a sufficiently long buffer (at least 25 bytes, so that the
reserved-byte read at index 24 cannot panic), `SystemMessage::from_bytes`
fails with the classification error `UnknownMessageType(1)` exactly when
the decoded `classification_region` is in {0,4,5,6,7}, succeeds exactly
when it is in {1,2,3}, and the classification error is a constructor
distinct from the insufficient-length and invalid-text-encoding errors. -/
theorem classification_region_gate (data : List Nat) (cls : Nat)
    (h : 25 ≤ data.length)
    (hcls : ((data.getD 0 0) >>> 2) &&& 0x07 = cls) :
    (cls ∈ [0, 4, 5, 6, 7] ↔
      SystemMessage.fromBytes data = some (.error (.unknownMessageType 1))) ∧
    (cls ∈ [1, 2, 3] ↔ ∃ m, SystemMessage.fromBytes data = some (.ok m)) ∧
    (∀ e a, (MessageError.unknownMessageType 1) ≠ .insufficientLength e a) ∧
    (MessageError.unknownMessageType 1) ≠ .invalidUtf8 := by
  have hlt : cls < 8 := hcls ▸ Nat.lt_succ_of_le Nat.and_le_right
  rw [sysFromBytes_eval data h, hcls]
  refine ⟨?_, ?_, fun e a => by simp, by simp⟩ <;>
    by_cases hbad : cls = 0 ∨ 3 < cls
  · rw [if_pos hbad]
    simp only [List.mem_cons, List.not_mem_nil, or_false, iff_true]
    omega
  · rw [if_neg hbad]
    simp only [List.mem_cons, List.not_mem_nil, or_false]
    constructor
    · intro hmem
      omega
    · intro hfalse
      exact absurd hfalse (by simp)
  · rw [if_pos hbad]
    simp only [List.mem_cons, List.not_mem_nil, or_false]
    constructor
    · intro hmem
      omega
    · rintro ⟨m, hm⟩
      exact absurd hm (by simp)
  · rw [if_neg hbad]
    simp only [List.mem_cons, List.not_mem_nil, or_false, iff_true]
    constructor
    · intro _
      exact ⟨_, rfl⟩
    · intro _
      omega

/-- Claim C6 witness: a 25-byte buffer with classification region 1
decodes successfully, and its region is in {1,2,3}. -/
theorem classification_region_gate_witness :
    ((1 : Nat) ∈ [0, 4, 5, 6, 7] ↔
      SystemMessage.fromBytes (4 :: List.replicate 24 0) =
        some (.error (.unknownMessageType 1))) ∧
    ((1 : Nat) ∈ [1, 2, 3] ↔
      ∃ m, SystemMessage.fromBytes (4 :: List.replicate 24 0) = some (.ok m)) ∧
    (∀ e a, (MessageError.unknownMessageType 1) ≠ .insufficientLength e a) ∧
    (MessageError.unknownMessageType 1) ≠ .invalidUtf8 :=
  classification_region_gate (4 :: List.replicate 24 0) 1 (by decide) (by decide)

/-- Claim C10: `SystemMessage::from_bytes` panics on inputs that pass its
own length precondition. Every 24-byte buffer (24 being the declared
expected length) passes the length check — it never yields the
insufficient-length error — and whenever the decoded classification region
also passes validation the read of the reserved byte at index 24 panics
(modelled as `none`); a successful decode requires at least 25 bytes. -/
theorem system_decode_24_byte_panic :
    (∀ data : List Nat, data.length = 24 →
      (∀ e a, SystemMessage.fromBytes data ≠ some (.error (.insufficientLength e a))) ∧
      (((data.getD 0 0) >>> 2) &&& 0x07 ∈ [1, 2, 3] →
        SystemMessage.fromBytes data = none)) ∧
    (∀ data m, SystemMessage.fromBytes data = some (.ok m) → 25 ≤ data.length) := by
  constructor
  · intro data hlen
    rw [sysFromBytes_eval24 data hlen]
    constructor
    · intro e a
      split <;> simp
    · intro hmem
      have hbad : ¬ (((data.getD 0 0) >>> 2) &&& 0x07 = 0 ∨
          3 < ((data.getD 0 0) >>> 2) &&& 0x07) := by
        simp only [List.mem_cons, List.not_mem_nil, or_false] at hmem
        omega
      rw [if_neg hbad]
  · intro data m hok
    by_cases h25 : 25 ≤ data.length
    · exact h25
    · by_cases h24 : data.length < 24
      · rw [SystemMessage.fromBytes,
          if_pos (by simp only [SystemMessage.EXPECTED_LENGTH]; omega)] at hok
        simp at hok
      · rw [sysFromBytes_eval24 data (by omega)] at hok
        split at hok <;> simp at hok

/-- Claim C10 witness: the concrete 24-byte buffer `[4, 0, …, 0]` passes
the length check, its classification region 1 passes validation, and
decode panics; the same buffer extended to 25 bytes decodes successfully. -/
theorem system_decode_24_byte_panic_witness :
    SystemMessage.fromBytes (4 :: List.replicate 23 0) = none ∧
    25 ≤ (4 :: List.replicate 24 0 : List Nat).length :=
  ⟨(system_decode_24_byte_panic.1 (4 :: List.replicate 23 0) (by decide)).2 (by decide),
   system_decode_24_byte_panic.2 (4 :: List.replicate 24 0)
     ⟨0, 0, 1, 0, 0, 0, 0, 0, 0, 0, 0, 0, 0, 0, 0⟩ (by decide)⟩

/-- Claim C9: the rate-limit gate of `handle_publish_packet`. After a
message is accepted at time `t0` (milliseconds), a second message at time
`t1` is dropped — gate closed, stored timestamp unchanged, nothing queued
— when less than 50 ms have elapsed, and accepted (with the timestamp
advanced to `t1`) when at least 50 ms have elapsed. -/
theorem rate_limit_gate_50ms (t0 t1 : Nat) :
    (t1 - t0 < 50 → rateLimitGate t0 t1 = (false, t0)) ∧
    (50 ≤ t1 - t0 → rateLimitGate t0 t1 = (true, t1)) := by
  constructor <;> intro h <;>
    simp [rateLimitGate, RATE_LIMIT_INTERVAL_MS] <;> omega

/-- Claim C9 witness: a second message 30 ms after the first is dropped
with the stored time unchanged; one 50 ms after is accepted. -/
theorem rate_limit_gate_50ms_witness :
    rateLimitGate 100 130 = (false, 100) ∧ rateLimitGate 100 150 = (true, 150) :=
  ⟨(rate_limit_gate_50ms 100 130).1 (by decide),
   (rate_limit_gate_50ms 100 150).2 (by decide)⟩

/-- `retry_count` held by the polling loop after `n` consecutive failures
cycles through 0..5. -/
theorem retryAfterFailures_mod (n : Nat) : retryAfterFailures n = n % 6 := by
  induction n with
  | zero => rfl
  | succ n ih =>
    rw [retryAfterFailures, ih, eventLoopStep]
    simp only [Bool.not_true, Bool.false_eq_true, if_false]
    by_cases h : n % 6 < 5 <;> simp [h] <;> omega

/-- Claim C8 counterexample: the delays of consecutive poll failures are
not 1, 2, 4, 8, 16 and then a flat 30: the sixth failure (n = 5) does
sleep 30 s, but the loop then resets `retry_count`, so the seventh failure
(n = 6) sleeps 1 s again instead of the claimed 30 s. -/
theorem backoff_not_flat_after_five :
    nthFailureDelay 5 = 30 ∧ nthFailureDelay 6 = 1 ∧ (1 : Nat) ≠ 30 := by decide

/-- Claim C8 (amended): while `connected` is true the backoff delay of the
`n`-th consecutive poll failure is `2^(n % 6)` seconds for `n % 6 < 5` and
30 seconds for `n % 6 = 5` — i.e. the cycle 1, 2, 4, 8, 16, 30 repeats,
because the 30-second branch resets the attempt counter; an incoming event
also resets the counter; and when `connected` is false a poll error makes
the loop exit in that same iteration with no delay. -/
theorem backoff_cycle_and_exit (n : Nat) :
    nthFailureDelay n = (if n % 6 < 5 then 2 ^ (n % 6) else 30) ∧
    (∀ k, eventLoopStep false k .pollErr = ⟨true, 0, k⟩) ∧
    (∀ c k, eventLoopStep c k .incoming = ⟨false, 0, 0⟩) := by
  refine ⟨?_, fun k => rfl, fun c k => rfl⟩
  rw [nthFailureDelay, retryAfterFailures_mod, eventLoopStep]
  by_cases h : n % 6 < 5 <;> simp [h]

/-- Claim C2 counterexample: the tagged encodings are 25 bytes, not the
claimed 24 — `BaseMessage::encode` emits 1 tag + 1 type byte + 23
identifier/padding bytes, `SystemMessage::encode` 1 tag + 24 payload
bytes. -/
theorem encode_length_not_24 :
    ((BaseMessage.encode sampleBase).getD []).length = 25 ∧
    (SystemMessage.encode 0 sampleSystem).length = 25 ∧ (25 : Nat) ≠ 24 := by decide

/-- Claim C2 (amended): `encode` output length is a fixed 25 bytes
including the tag for both kinds — unconditionally for `SystemMessage`,
and for `BaseMessage` whenever it returns at all, which is exactly when
the identifier is at most 23 bytes (a longer identifier makes the padding
subtraction panic). -/
theorem encode_length_fixed_25 :
    (∀ now m, (SystemMessage.encode now m).length = 25) ∧
    (∀ (m : BaseMessage) out, BaseMessage.encode m = some out → out.length = 25) ∧
    (∀ m : BaseMessage, BaseMessage.encode m = none ↔ 23 < m.uas_id.length) := by
  refine ⟨fun now m => ?_, fun m out hout => ?_, fun m => ?_⟩
  · simp [SystemMessage.encode, i32LeBytes, toLeBytes_length]
  · rw [BaseMessage.encode] at hout
    by_cases hlen : m.uas_id.length ≤ 23
    · rw [if_pos hlen] at hout
      simp only [Option.some.injEq] at hout
      subst hout
      simp only [List.length_cons, List.length_append, List.length_replicate]
      omega
    · rw [if_neg hlen] at hout
      exact absurd hout (by simp)
  · rw [BaseMessage.encode]
    by_cases hlen : m.uas_id.length ≤ 23
    · rw [if_pos hlen]
      exact iff_of_false (by simp) (by omega)
    · rw [if_neg hlen]
      exact iff_of_true rfl (by omega)

/-- Claim C2 witness: concrete encodings of length 25 and a concrete
over-length identifier on which `BaseMessage::encode` panics. -/
theorem encode_length_fixed_25_witness :
    (SystemMessage.encode 7 sampleSystem).length = 25 ∧
    ((BaseMessage.encode sampleBase).getD []).length = 25 ∧
    BaseMessage.encode ⟨0, 0, List.replicate 24 0x41, [0, 0, 0]⟩ = none :=
  ⟨encode_length_fixed_25.1 7 sampleSystem,
   encode_length_fixed_25.2.1 sampleBase _ rfl,
   (encode_length_fixed_25.2.2 _).mpr (by decide)⟩

/-- Claim C3 counterexample: `BaseMessage::encode` does not truncate
over-length identifiers and does not return normally for every `uas_id`.
A 24-byte identifier makes the `23 - id_len` padding subtraction panic
(`none`), and a 21-byte identifier is emitted in full — all 21 bytes
appear in the output, overflowing the nominal 20-byte field — rather than
being cut to 20 bytes. -/
theorem base_encode_no_truncation :
    BaseMessage.encode ⟨0, 0, List.replicate 24 0x41, [0, 0, 0]⟩ = none ∧
    (BaseMessage.encode ⟨0, 0, List.replicate 21 0x42, [0, 0, 0]⟩).getD [] =
      [0x01, 0x00] ++ List.replicate 21 0x42 ++ [0, 0] := by decide

/-- Claim C3 (amended): at encode time the identifier is zero-padded so
that the output is a fixed 25 bytes whenever the identifier is at most 23
bytes — the identifier bytes appear unmodified (never truncated) starting
at offset 2, followed by `23 - len` zero bytes — and an identifier longer
than 23 bytes makes encode panic instead of returning. -/
theorem base_encode_pad_no_truncate (m : BaseMessage) :
    (m.uas_id.length ≤ 23 →
      ∃ out, BaseMessage.encode m = some out ∧ out.length = 25 ∧
        (out.drop 2).take m.uas_id.length = m.uas_id ∧
        (out.drop 2).drop m.uas_id.length = List.replicate (23 - m.uas_id.length) 0) ∧
    (23 < m.uas_id.length → BaseMessage.encode m = none) := by
  constructor
  · intro hlen
    refine ⟨_, by rw [BaseMessage.encode, if_pos hlen], ?_, ?_, ?_⟩
    · simp only [List.length_cons, List.length_append, List.length_replicate]
      omega
    · simp only [List.drop_succ_cons, List.drop_zero]
      rw [List.take_append_eq_append_take, List.take_of_length_le (Nat.le_refl _),
        Nat.sub_self, List.take_zero, List.append_nil]
    · simp only [List.drop_succ_cons, List.drop_zero]
      rw [List.drop_append_eq_append_drop, List.drop_of_length_le (Nat.le_refl _),
        Nat.sub_self, List.drop_zero, List.nil_append]
  · intro hlen
    rw [BaseMessage.encode, if_neg (by omega)]

/-- Claim C3 witness: a 2-byte identifier is padded with 21 zeros into a
25-byte frame, and a 24-byte identifier panics. -/
theorem base_encode_pad_no_truncate_witness :
    (∃ out, BaseMessage.encode ⟨5, 6, [0x41, 0x42], [0, 0, 0]⟩ = some out ∧
      out.length = 25 ∧ (out.drop 2).take 2 = [0x41, 0x42] ∧
      (out.drop 2).drop 2 = List.replicate 21 0) ∧
    BaseMessage.encode ⟨0, 0, List.replicate 24 0x41, [0, 0, 0]⟩ = none :=
  ⟨(base_encode_pad_no_truncate ⟨5, 6, [0x41, 0x42], [0, 0, 0]⟩).1 (by decide),
   (base_encode_pad_no_truncate ⟨0, 0, List.replicate 24 0x41, [0, 0, 0]⟩).2 (by decide)⟩

/-- Claim C7: for every SSID and Remote-ID payload, the beacon built by
`build_rid_beacon` carries exactly one vendor-specific information
element — IEEE element ID 221, the 3-byte OUI `FA 0B BC`, sub-type 13 —
whose data field is the entire supplied payload, byte for byte,
unmodified and unsegmented; in the serialized frame that element is the
final information element, its data bytes being the frame's suffix. -/
theorem vendor_ie_whole_payload (seq ts : Nat) (ssid rid : List Nat) :
    (ridBeaconValue seq ts ssid rid).station_info.vendor_specific =
      [⟨221, rid.length % 256, [0xFA, 0x0B, 0xBC], 13, rid⟩] ∧
    (ridBeaconValue seq ts ssid rid).station_info.vendor_specific.length = 1 ∧
    buildRidBeacon seq ts ssid rid =
      managementHeaderBytes (ridBeaconValue seq ts ssid rid).header ++
      toLeBytes ts 8 ++ toLeBytes 100 2 ++ toLeBytes 0x1104 2 ++
      ((0 :: ssid.length % 256 :: ssid) ++ [3, 1, 6] ++
        ([221, rid.length % 256, 0xFA, 0x0B, 0xBC, 13] ++ rid)) := by
  refine ⟨rfl, rfl, ?_⟩
  simp [buildRidBeacon, Beacon.encode, ridBeaconValue, stationInfoBytes, vendorIeBytes]

/-- Claim C4: in every successfully encoded packet, the CRC16/XMODEM of
the bytes before the checksum field — the 4 header bytes followed by the
base, position and system sub-message bytes — equals the stored checksum,
which sits in little-endian order immediately before the 3 reserved
bytes; recomputing the checksum over the encoded output reproduces the
transmitted field. Holds for every byte content of the opaque position
sub-message. -/
theorem packet_checksum_crc16 (ridCounter now : Nat) (p : PacketMessage)
    (hres : p.reserved.length = 3) :
    ∀ out, PacketMessage.encode ridCounter now p = some out →
      out.take (out.length - 5) =
        (ridCounter % 256) :: (p.protocol_version % 256) ::
        (p.message_size % 256) :: (p.message_quantity % 256) ::
        ((p.base_message.encode).getD [] ++ p.position_message.encode ++
          p.system_message.encode now) ∧
      crc16Xmodem (out.take (out.length - 5)) =
        fromLeBytes ((out.drop (out.length - 5)).take 2) ∧
      out.drop (out.length - 5) =
        toLeBytes (crc16Xmodem (out.take (out.length - 5))) 2 ++ p.reserved := by
  intro out hout
  rw [PacketMessage.encode] at hout
  cases hbb : p.base_message.encode with
  | none => rw [hbb] at hout; exact absurd hout (by simp)
  | some bb =>
    rw [hbb, Option.map_some'] at hout
    simp only [Option.some.injEq] at hout
    set body := (ridCounter % 256) :: (p.protocol_version % 256) ::
      (p.message_size % 256) :: (p.message_quantity % 256) ::
      (bb ++ p.position_message.encode ++ p.system_message.encode now) with hbody
    rw [← hout]
    have hre : body ++ toLeBytes (crc16Xmodem body) 2 ++ p.reserved =
        body ++ (toLeBytes (crc16Xmodem body) 2 ++ p.reserved) := by
      rw [List.append_assoc]
    have hlen : (body ++ toLeBytes (crc16Xmodem body) 2 ++ p.reserved).length - 5 =
        body.length := by
      simp only [List.length_append, toLeBytes_length, hres]
      omega
    rw [hlen, hre, List.take_left, List.drop_left]
    have htk2 : (toLeBytes (crc16Xmodem body) 2 ++ p.reserved).take 2 =
        toLeBytes (crc16Xmodem body) 2 :=
      List.take_left' (toLeBytes_length _ 2)
    refine ⟨by simp only [hbody, Option.getD_some], ?_, rfl⟩
    rw [htk2, fromLeBytes_toLeBytes_two _ (crc16Xmodem_lt body)]

/-- Claim C4 witness: the checksum equations evaluated on the concrete
encoded bytes of `samplePacket`. -/
theorem packet_checksum_crc16_witness :
    samplePacketBytes.take (samplePacketBytes.length - 5) =
      (1 % 256) :: (samplePacket.protocol_version % 256) ::
      (samplePacket.message_size % 256) :: (samplePacket.message_quantity % 256) ::
      ((samplePacket.base_message.encode).getD [] ++
        samplePacket.position_message.encode ++
        samplePacket.system_message.encode 0) ∧
    crc16Xmodem (samplePacketBytes.take (samplePacketBytes.length - 5)) =
      fromLeBytes ((samplePacketBytes.drop (samplePacketBytes.length - 5)).take 2) ∧
    samplePacketBytes.drop (samplePacketBytes.length - 5) =
      toLeBytes (crc16Xmodem (samplePacketBytes.take (samplePacketBytes.length - 5))) 2 ++
      samplePacket.reserved :=
  packet_checksum_crc16 1 0 samplePacket rfl samplePacketBytes rfl

/-- Claim C1 counterexample: `decode(encode(m))` does not recover the
fields. `BaseMessage::from_bytes` does not skip the tag byte that
`encode` prepends, so the concrete in-range message with `id_type = 2`,
`ua_type = 3`, `uas_id = "A"` decodes to `id_type = 0`, `ua_type = 1` and
a shifted identifier; the concrete in-range `SystemMessage` does not even
decode: its tag byte is parsed as the packed field byte, whose
classification region reads as 0, so decode fails outright. -/
theorem roundtrip_fails_on_tag :
    BaseMessage.fromBytes ((BaseMessage.encode sampleBase).getD []) =
      .ok ⟨0, 1, [0x23, 0x41], [0, 0, 0]⟩ ∧
    sampleBase.id_type = 2 ∧ sampleBase.ua_type = 3 ∧ sampleBase.uas_id = [0x41] ∧
    SystemMessage.fromBytes (SystemMessage.encode 0 sampleSystem) =
      some (.error (.unknownMessageType 1)) := by decide

/-- Claim C1 (amended): the Base round-trip holds only after stripping
the 1-byte tag that `encode` prepends and `from_bytes` never consumes:
for every `BaseMessage` with 4-bit `id_type`/`ua_type` and a valid-UTF-8
identifier of at most 20 bytes that is unchanged by the decoder's
trailing-NUL-and-whitespace trimming, `from_bytes` applied to the encoded
bytes minus their first byte recovers `id_type`, `ua_type` and `uas_id`
exactly (the reserved field is reset to zeros). No analogous statement
holds for `SystemMessage`, whose encode packs `coordinate_system` into
different bits than decode reads and overwrites the timestamp. -/
theorem base_roundtrip_tag_stripped (m : BaseMessage)
    (hid : m.id_type < 16) (hua : m.ua_type < 16)
    (hlen : m.uas_id.length ≤ 20)
    (hutf : utf8Valid m.uas_id = true)
    (htrim : trimEndWs (trimNul m.uas_id) = m.uas_id) :
    ∀ out, BaseMessage.encode m = some out →
      BaseMessage.fromBytes (out.drop 1) =
        .ok ⟨m.id_type, m.ua_type, m.uas_id, [0, 0, 0]⟩ := by
  intro out hout
  rw [BaseMessage.encode, if_pos (by omega)] at hout
  simp only [Option.some.injEq] at hout
  subst hout
  rw [List.drop_succ_cons, List.drop_zero]
  have hx : (m.uas_id ++ List.replicate (23 - m.uas_id.length) 0).length = 23 := by
    simp only [List.length_append, List.length_replicate]
    omega
  rw [baseFromBytes_cons_eval _ _ hx]
  have htake : (m.uas_id ++ List.replicate (23 - m.uas_id.length) 0).take 20 =
      m.uas_id ++ List.replicate (20 - m.uas_id.length) 0 := by
    rw [List.take_append_eq_append_take, List.take_of_length_le hlen,
      List.take_replicate]
    congr 2
    omega
  rw [htake, if_pos (utf8Valid_append _ _ hutf (utf8Valid_replicate_zero _))]
  rw [trimNul_append_zeros, htrim]
  have hrec := type_byte_recover m.id_type hid m.ua_type hua
  rw [hrec.1, hrec.2]

/-- Claim C1 witness: the tag-stripped round-trip on the concrete sample
Base message. -/
theorem base_roundtrip_tag_stripped_witness :
    BaseMessage.fromBytes (((BaseMessage.encode sampleBase).getD []).drop 1) =
      .ok ⟨sampleBase.id_type, sampleBase.ua_type, sampleBase.uas_id, [0, 0, 0]⟩ :=
  base_roundtrip_tag_stripped sampleBase (by decide) (by decide) (by decide)
    (by decide) (by decide) _ rfl

end RidSim
